import Mathlib

/-!
Verification of the airline operations repository.

This file embeds, as plain Lean definitions, the parts of the source that the
verified properties are about:

* `crew_optimizer.py` — the crew assignment engine (`_assign_crew_to_flight`,
  `optimize_schedule`) and the conflict detector (`_check_schedule_issues`);
* `main.py` — component initialization (`_initialize_components`), the alert
  drain (`_process_alerts`), the crew producer tick (`_optimize_crew`) and the
  generic producer loop shape shared by all four producer threads.

Time is modelled as a natural number of hours; `datetime.now()` becomes an
explicit `now : Time` argument, and each call site of the `random` module
becomes an explicit oracle argument (`Rand`), so that the embedded functions
are deterministic functions of their inputs and the random draws.
-/

namespace AirlinePredict

/-- Wall-clock time, in hours (the code only ever adds whole hours). -/
abbrev Time := Nat

/-- One entry of `CrewOptimizer.crew_members` (`crew_optimizer.py`,
`_initialize_crew`).  Display-only fields that no logic reads
(`name`, `license_type`, `flight_hours`, `base`, `type_ratings`) are omitted. -/
structure CrewMember where
  crew_id : String
  role : String
  rest_hours : Nat
  next_available : Time
  assigned_flights : List String
deriving Repr, DecidableEq

/-- The two fields of a flight record read by `_assign_crew_to_flight`. -/
structure FlightInfo where
  flight_id : String
  aircraft_id : String
deriving Repr, DecidableEq

/-- The assignment dict returned by `_assign_crew_to_flight`
(`assignment_time` is omitted: no claim reads it). -/
structure Assignment where
  flight_id : String
  aircraft_id : String
  captain : Option String
  first_officer : Option String
  attendants : List String
  crew_count : Nat
deriving Repr, DecidableEq

/-- The issue dicts appended by `_check_schedule_issues`: either a
`DOUBLE_BOOKING` record (crew id, pair of flight ids, severity) or a
`CREW_SHORTAGE` record (flight id, missing role, severity). -/
inductive Issue where
  | doubleBooking (crew_id : String) (flights : List String) (severity : String)
  | crewShortage (flight_id : String) (missing_role : String) (severity : String)
deriving Repr, DecidableEq

/-- The random draws consumed by one `_assign_crew_to_flight` call:
`capChoice` and `foChoice` drive the two `random.choice` calls (reduced modulo
the population size), `attSample` lists the positions inside the attendant pool
picked by `random.sample`, and `durChoice` drives `random.randint(1, 6)`. -/
structure Rand where
  capChoice : Nat
  foChoice : Nat
  attSample : List Nat
  durChoice : Nat
deriving Repr, DecidableEq

/-- Contract of `random.sample(pool, min(4, len(pool)))` on the chosen
positions: distinct, in range, and exactly `min 4 n` of them (sampling
without replacement). -/
def SampleOk (s : List Nat) (n : Nat) : Prop :=
  s.Nodup ∧ (∀ j ∈ s, j < n) ∧ s.length = min 4 n

instance (s : List Nat) (n : Nat) : Decidable (SampleOk s n) := by
  unfold SampleOk; infer_instance

/-- `available_pilots` in `_assign_crew_to_flight`, as the list of indices into
the crew list (in roster order) whose member has role `"pilot"`,
`next_available <= now` and `rest_hours <= 8`. -/
def availablePilotIdxs (crew : List CrewMember) (now : Time) : List Nat :=
  (List.range crew.length).filter (fun i =>
    match crew.get? i with
    | some c => c.role == "pilot" && decide (c.next_available ≤ now) && decide (c.rest_hours ≤ 8)
    | none => false)

/-- `available_attendants` in `_assign_crew_to_flight`, as the list of indices
into the crew list whose member has role `"attendant"` and
`next_available <= now`. -/
def availableAttendantIdxs (crew : List CrewMember) (now : Time) : List Nat :=
  (List.range crew.length).filter (fun i =>
    match crew.get? i with
    | some c => c.role == "attendant" && decide (c.next_available ≤ now)
    | none => false)

/-- The crew ids of the eligible attendant pool, in pool order. -/
def attendantPoolIds (crew : List CrewMember) (now : Time) : List String :=
  (availableAttendantIdxs crew now).filterMap
    (fun i => (crew.get? i).map CrewMember.crew_id)

/-- The in-place mutation `captain['next_available'] = ...;
captain['assigned_flights'].append(flight_id)` applied to one member. -/
def touchMember (fid : String) (na : Time) (c : CrewMember) : CrewMember :=
  { c with next_available := na, assigned_flights := c.assigned_flights ++ [fid] }

/-- Apply `touchMember` to the crew-list entry at index `i` (the Python code
mutates the member object through the reference held in the pool). -/
def touchAt (crew : List CrewMember) (i : Nat) (fid : String) (na : Time) :
    List CrewMember :=
  match crew.get? i with
  | some c => crew.set i (touchMember fid na c)
  | none => crew

/-- `captain = random.choice(available_pilots[:5]) if available_pilots else
None`, as the chosen crew-list index: the first-five slice of the pilot pool
indexed at `capChoice` modulo its length, `none` on an empty pool. -/
def capIdx (crew : List CrewMember) (now : Time) (r : Rand) : Option Nat :=
  let pilots := availablePilotIdxs crew now
  if pilots.isEmpty then none
  else (pilots.take 5).get? (r.capChoice % (pilots.take 5).length)

/-- `first_officer = random.choice(available_pilots[5:]) if
len(available_pilots) > 5 else None`, as the chosen crew-list index. -/
def foIdx (crew : List CrewMember) (now : Time) (r : Rand) : Option Nat :=
  let pilots := availablePilotIdxs crew now
  if 5 < pilots.length then (pilots.drop 5).get? (r.foChoice % (pilots.drop 5).length)
  else none

/-- `attendants = random.sample(available_attendants, min(4,
len(available_attendants)))`, as the chosen crew-list indices: the attendant
pool read at the oracle positions `attSample` (positions outside the pool
contribute nothing; the `SampleOk` contract rules them out). -/
def attIdxsOf (crew : List CrewMember) (now : Time) (r : Rand) : List Nat :=
  r.attSample.filterMap (availableAttendantIdxs crew now).get?

/-- `datetime.now() + rest_period` with `flight_duration = random.randint(1,
6)` embedded as `1 + durChoice % 6` and `rest_period = flight_duration + 10`
hours. -/
def restEnd (now : Time) (r : Rand) : Time := now + (1 + r.durChoice % 6 + 10)

/-- `CrewOptimizer._assign_crew_to_flight`.  Returns the updated crew list and
the assignment record: select the captain, first officer and attendants from
the eligible pools, mark each selected member unavailable until
`now + rest_period` appending the flight to its history, and emit the
assignment dict (crew ids are read from the pre-update crew list; the update
does not change ids). -/
def assignCrewToFlight (crew : List CrewMember) (now : Time) (r : Rand)
    (f : FlightInfo) : List CrewMember × Assignment :=
  let na := restEnd now r
  let crew1 := match capIdx crew now r with
    | some i => touchAt crew i f.flight_id na
    | none => crew
  let crew2 := match foIdx crew now r with
    | some i => touchAt crew1 i f.flight_id na
    | none => crew1
  let crew3 := (attIdxsOf crew now r).foldl (fun cs i => touchAt cs i f.flight_id na) crew2
  let attendantIds := (attIdxsOf crew now r).filterMap
    (fun i => (crew.get? i).map CrewMember.crew_id)
  (crew3,
   { flight_id := f.flight_id
     aircraft_id := f.aircraft_id
     captain := (capIdx crew now r).bind (fun i => (crew.get? i).map CrewMember.crew_id)
     first_officer := (foIdx crew now r).bind (fun i => (crew.get? i).map CrewMember.crew_id)
     attendants := attendantIds
     crew_count := attendantIds.length + (if (capIdx crew now r).isSome then 1 else 0)
       + (if (foIdx crew now r).isSome then 1 else 0) })

/-- The per-flight loop of `optimize_schedule`: thread the crew list through
`_assign_crew_to_flight` for each flight in input order.  `env k` supplies the
clock value and the random draws of the `k`-th call. -/
def runFlights (env : Nat → Time × Rand) :
    Nat → List CrewMember → List FlightInfo → List CrewMember × List Assignment
  | _, crew, [] => (crew, [])
  | k, crew, f :: fs =>
    let nr := env k
    let step := assignCrewToFlight crew nr.1 nr.2 f
    let rest := runFlights env (k + 1) step.1 fs
    (rest.1, step.2 :: rest.2)

/-- Python truthiness of an optional string (`if crew_id:` /
`not assignment.get('captain')`): `None` and the empty string are falsy. -/
def pyTruthy : Option String → Bool
  | none => false
  | some s => !s.isEmpty

/-- The `crew_assignments` dict of `_check_schedule_issues`.  Lookups read the
most recently stored binding, so prepending a pair models
`crew_assignments[crew_id] = flight_id`. -/
abbrev BookMap := List (String × String)

/-- Processing of one pilot slot (`captain` / `first_officer`) in the
double-booking loop: skipped when the id is falsy; otherwise an issue of
severity `"HIGH"` is appended on a repeat sighting, and the map entry is
overwritten with the current flight. -/
def dbSlot (fid : String) (st : List Issue × BookMap) (cid? : Option String) :
    List Issue × BookMap :=
  match cid? with
  | none => st
  | some cid =>
    if cid.isEmpty then st
    else
      let iss := match st.2.lookup cid with
        | some prev => st.1 ++ [Issue.doubleBooking cid [prev, fid] "HIGH"]
        | none => st.1
      (iss, (cid, fid) :: st.2)

/-- Processing of one attendant id in the double-booking loop (no truthiness
guard in the source; severity `"MEDIUM"`). -/
def dbAttendant (fid : String) (st : List Issue × BookMap) (cid : String) :
    List Issue × BookMap :=
  let iss := match st.2.lookup cid with
    | some prev => st.1 ++ [Issue.doubleBooking cid [prev, fid] "MEDIUM"]
    | none => st.1
  (iss, (cid, fid) :: st.2)

/-- The body of the first loop of `_check_schedule_issues` for one assignment:
captain, then first officer, then the attendants in list order. -/
def dbAssignment (st : List Issue × BookMap) (a : Assignment) :
    List Issue × BookMap :=
  let st1 := dbSlot a.flight_id st a.captain
  let st2 := dbSlot a.flight_id st1 a.first_officer
  a.attendants.foldl (dbAttendant a.flight_id) st2

/-- The shortage check of the second loop of `_check_schedule_issues` for one
assignment: one CRITICAL issue when the captain or the first officer is falsy,
naming `captain` when the captain is falsy and `first_officer` otherwise. -/
def shortageIssue (a : Assignment) : Option Issue :=
  if !pyTruthy a.captain || !pyTruthy a.first_officer then
    some (Issue.crewShortage a.flight_id
      (if !pyTruthy a.captain then "captain" else "first_officer") "CRITICAL")
  else none

/-- `CrewOptimizer._check_schedule_issues`: the double-booking pass over all
assignments followed by the shortage pass, both appending to the same issue
list. -/
def checkScheduleIssues (assignments : List Assignment) : List Issue :=
  let st := assignments.foldl dbAssignment ([], [])
  assignments.foldl (fun iss a =>
    match shortageIssue a with
    | some i => iss ++ [i]
    | none => iss) st.1

/-- `CrewOptimizer.optimize_schedule` restricted to the fields the claims
read: final crew state, assignment list, issue list (the summary dict is not
modelled; no claim reads it). -/
def optimizeSchedule (crew : List CrewMember) (flights : List FlightInfo)
    (env : Nat → Time × Rand) :
    List CrewMember × List Assignment × List Issue :=
  let run := runFlights env 0 crew flights
  (run.1, run.2, checkScheduleIssues run.2)

/-- One sighting of a crew id in the double-booking pass: the id, the flight
of the sighting, and the severity the pass would attach to a repeat at this
slot (`"HIGH"` at a captain / first-officer slot, `"MEDIUM"` at an attendant
slot). -/
structure Occ where
  crew_id : String
  flight_id : String
  severity : String
deriving Repr, DecidableEq

/-- Sightings contributed by one pilot slot: none when the id is falsy. -/
def pilotOcc (fid : String) (cid? : Option String) : List Occ :=
  match cid? with
  | some c => if c.isEmpty then [] else [⟨c, fid, "HIGH"⟩]
  | none => []

/-- Sightings contributed by one assignment, in the slot order of the source:
captain, first officer, then the attendants in list order. -/
def occsOf (a : Assignment) : List Occ :=
  pilotOcc a.flight_id a.captain ++ pilotOcc a.flight_id a.first_officer ++
    a.attendants.map (fun c => ⟨c, a.flight_id, "MEDIUM"⟩)

/-- All sightings of an assignment sequence, in assignment order. -/
def occList (asgs : List Assignment) : List Occ := (asgs.map occsOf).flatten

/-- One sighting step of the double-booking pass: emit an issue when the map
already holds the crew id (pairing the stored flight with the current one),
then overwrite the map entry with the current flight. -/
def dbOcc (st : List Issue × BookMap) (o : Occ) : List Issue × BookMap :=
  let iss := match st.2.lookup o.crew_id with
    | some prev => st.1 ++ [Issue.doubleBooking o.crew_id [prev, o.flight_id] o.severity]
    | none => st.1
  (iss, (o.crew_id, o.flight_id) :: st.2)

/-- Specification of the double-booking pass, written from the claim as
amended: process the sightings in order; on a repeat sighting of a crew id,
emit a `DOUBLE_BOOKING` pairing the flight of the *most recent previous*
sighting with the current flight, carrying the severity of the current slot;
every sighting overwrites the id's map entry with its flight. -/
def dbSpec (m : BookMap) : List Occ → List Issue
  | [] => []
  | o :: os =>
    match m.lookup o.crew_id with
    | some prev =>
      Issue.doubleBooking o.crew_id [prev, o.flight_id] o.severity
        :: dbSpec ((o.crew_id, o.flight_id) :: m) os
    | none => dbSpec ((o.crew_id, o.flight_id) :: m) os

/-- The book map after recording a list of sightings. -/
def pushOccs (m : BookMap) (os : List Occ) : BookMap :=
  os.foldl (fun acc o => (o.crew_id, o.flight_id) :: acc) m

/-- Specification of the shortage pass, written from the spec (§4.2, §7):
exactly one CRITICAL `CREW_SHORTAGE` per assignment whose captain or first
officer is missing, naming the captain when the captain is missing (captain
takes priority when both are) and the first officer otherwise. -/
def shortageSpec (asgs : List Assignment) : List Issue :=
  (asgs.filter (fun a => !pyTruthy a.captain || !pyTruthy a.first_officer)).map
    (fun a => Issue.crewShortage a.flight_id
      (if !pyTruthy a.captain then "captain" else "first_officer") "CRITICAL")

/-- Tag test: is the issue a `DOUBLE_BOOKING`? -/
def isDoubleBooking : Issue → Bool
  | .doubleBooking .. => true
  | .crewShortage .. => false

/-- Tag test: is the issue a `CREW_SHORTAGE`? -/
def isShortage : Issue → Bool
  | .doubleBooking .. => false
  | .crewShortage .. => true

/-- Zero-padded `f"{i:03d}"`. -/
def pad3 (n : Nat) : String :=
  if n < 10 then "00" ++ toString n
  else if n < 100 then "0" ++ toString n
  else toString n

/-- `CrewOptimizer._initialize_crew`: 10 pilots `P001`..`P010` then 20
attendants `FA001`..`FA020`, all created at the initialization clock `now`
with zero rest hours and no assigned flights. -/
def initializeCrew (now : Time) : List CrewMember :=
  ((List.range 10).map (fun i =>
    { crew_id := "P" ++ pad3 (i + 1), role := "pilot", rest_hours := 0,
      next_available := now, assigned_flights := [] })) ++
  ((List.range 20).map (fun i =>
    { crew_id := "FA" ++ pad3 (i + 1), role := "attendant", rest_hours := 0,
      next_available := now, assigned_flights := [] }))

/-! ## Embedding of `main.py` -/

/-- An alert event as far as the dispatcher reads it: only the `severity`
field is inspected (`alert.get('severity')`); the rest of the dict is carried
opaquely as a message string. -/
structure Alert where
  severity : String
  message : String
deriving Repr, DecidableEq

/-- The component names registered by `_initialize_components`
(`component_configs`, keys after `name.lower().replace(' ', '_')`). -/
def componentNames : List String :=
  ["log_processor", "delay_predictor", "crew_optimizer", "load_predictor",
   "health_monitor", "route_monitor", "dashboard", "reporter"]

/-- Whether `Class(config)` succeeds for the component class bound to a name.
Every component class in the repository declares `def __init__(self)` with no
further parameter, so the call with a config argument raises `TypeError` for
each of them and the `except` branch stores `None`. -/
def constructorAcceptsConfig : String → Bool := fun _ => false

/-- The `self.components` dict built by `_initialize_components`: each
registered name mapped to whether the stored value is a live component
(`true`) or `None` (`false`). -/
def initializeComponents : List (String × Bool) :=
  componentNames.map (fun n => (n, constructorAcceptsConfig n))

/-- A Python dict read `d[k]`: the stored truthiness on a hit, a `KeyError`
exception otherwise. -/
def dictGet (d : List (String × Bool)) (k : String) : Except String Bool :=
  match d.lookup k with
  | some v => Except.ok v
  | none => Except.error ("KeyError: " ++ k)

/-- `AirlineOperationsSystem._process_alerts`: dequeue every queued alert;
for each, read `self.components['alert_system']` (raising `KeyError` when the
key was never registered), forward to the alert system when it is truthy, and
append CRITICAL / EMERGENCY alerts to the critical log.  Returns the alerts
forwarded to the sink and the lines appended to the log; an uncaught
exception aborts the drain. -/
def processAlerts (components : List (String × Bool)) :
    List Alert → List Alert × List Alert → Except String (List Alert × List Alert)
  | [], st => Except.ok st
  | a :: rest, st => do
    let active ← dictGet components "alert_system"
    let sent := if active then st.1 ++ [a] else st.1
    let logged := if a.severity == "CRITICAL" || a.severity == "EMERGENCY"
      then st.2 ++ [a] else st.2
    processAlerts components rest (sent, logged)

/-- Whether `crew_optimizer.py` defines an `optimize` method (the crew
producer calls `self.components['crew_optimizer'].optimize(...)`; the class
only defines `optimize_schedule`, so the attribute access would raise). -/
def crewOptimizerHasOptimize : Bool := false

/-- The guarded body of one `_optimize_crew` iteration, up to the point where
alerts would be produced: when the component is `None` or no flight data is
loaded, the body is skipped and no event is enqueued; otherwise the
`optimize` attribute access raises (caught by the loop's `except`). -/
def optimizeCrewTick (components : List (String × Bool))
    (flightsLoaded : Bool) : Except String (List Alert) := do
  let opt ← dictGet components "crew_optimizer"
  if opt && flightsLoaded then
    if crewOptimizerHasOptimize then
      Except.ok []
    else
      Except.error "AttributeError: optimize"
  else
    Except.ok []

/-- One producer-loop iteration under the loop's `try/except Exception`: an
exception inside the evaluation is caught (only logged) and the iteration
contributes no events. -/
def producerIteration (body : Except String (List Alert)) : List Alert :=
  match body with
  | Except.ok evs => evs
  | Except.error _ => []

/-- The shape shared by `_monitor_health`, `_predict_delays`, `_optimize_crew`
and `_update_dashboard`: a `while self.is_running` loop whose body evaluates
the producer under `try/except` and enqueues the resulting events.  `flags`
lists the successive reads of the shared running flag (one per tick);
`eval k` is the outcome of the `k`-th evaluation.  Returns the number of
iterations the loop executed and the events it enqueued, in emission order. -/
def producerLoop (eval : Nat → Except String (List Alert)) :
    List Bool → Nat → Nat × List Alert
  | [], k => (k, [])
  | false :: _, k => (k, [])
  | true :: rest, k =>
    let evs := producerIteration (eval k)
    let r := producerLoop eval rest (k + 1)
    (r.1, evs ++ r.2)

/-- The crew-optimization step of `run_single_analysis`: read the component
and report whether the optimization branch runs (the `if
self.components['crew_optimizer']:` guard). -/
def runSingleAnalysisCrewStep (components : List (String × Bool)) :
    Except String Bool :=
  dictGet components "crew_optimizer"

/-! ## Concrete inputs used by counterexamples, scenarios and witnesses -/

/-- Helper property stated over a crew-state transition: every entry is either
kept unchanged or has been marked unavailable until `na` and was available at
`now` in the pre-batch state. -/
def TouchedOrKept (crew crew' : List CrewMember) (now na : Time) : Prop :=
  ∀ j c c', crew.get? j = some c → crew'.get? j = some c' →
    c' = c ∨ (c'.next_available = na ∧ c.next_available ≤ now)

/-- An assignment whose only crew is one attendant `cid` on flight `fid`. -/
def soloAtt (fid cid : String) : Assignment :=
  { flight_id := fid, aircraft_id := "VT-AXB", captain := none,
    first_officer := none, attendants := [cid], crew_count := 1 }

/-- Assignment with a captain but no first officer (a shortage) on flight `F1`. -/
def shortageA1 : Assignment :=
  { flight_id := "F1", aircraft_id := "VT-AXB", captain := some "P001",
    first_officer := none, attendants := [], crew_count := 1 }

/-- Assignment on flight `F2` repeating captain `P001` (a double booking). -/
def repeatA2 : Assignment :=
  { flight_id := "F2", aircraft_id := "VT-AXB", captain := some "P001",
    first_officer := some "P002", attendants := [], crew_count := 2 }

/-- Roster of the frozen-clock scenario: exactly two attendants, both
available at hour 0. -/
def frozenRoster : List CrewMember :=
  [{ crew_id := "FA001", role := "attendant", rest_hours := 0,
     next_available := 0, assigned_flights := [] },
   { crew_id := "FA002", role := "attendant", rest_hours := 0,
     next_available := 0, assigned_flights := [] }]

/-- The three flights of the frozen-clock scenario. -/
def frozenFlights : List FlightInfo :=
  [{ flight_id := "GA1001", aircraft_id := "VT-AXB" },
   { flight_id := "GA1002", aircraft_id := "VT-BXC" },
   { flight_id := "GA1003", aircraft_id := "VT-CXD" }]

/-- Frozen-clock environment: every clock read returns hour 0; the random
draws of the `k`-th flight come from `rs` (a default draw past the end). -/
def frozenEnv (rs : List Rand) : Nat → Time × Rand :=
  fun k => (0, (rs.get? k).getD ⟨0, 0, [], 0⟩)

/-- The frozen-clock roster after the first flight: both attendants marked
unavailable until hour `11 + dc % 6` with the flight in their histories. -/
def frozenAfter (dc : Nat) : List CrewMember :=
  [{ crew_id := "FA001", role := "attendant", rest_hours := 0,
     next_available := 0 + (1 + dc % 6 + 10), assigned_flights := ["GA1001"] },
   { crew_id := "FA002", role := "attendant", rest_hours := 0,
     next_available := 0 + (1 + dc % 6 + 10), assigned_flights := ["GA1001"] }]

/-- The assignment produced for a flight when both eligible pools are empty. -/
def emptyAsg (fid aid : String) : Assignment :=
  { flight_id := fid, aircraft_id := aid, captain := none,
    first_officer := none, attendants := [], crew_count := 0 }

/-! ## Basic list lemmas -/

lemma get?_lt_length {α : Type} {l : List α} {i : Nat} {a : α}
    (h : l.get? i = some a) : i < l.length := by
  by_contra hc
  rw [List.get?_eq_none.mpr (by omega)] at h
  exact Option.noConfusion h

lemma get?_of_lt_length {α : Type} {l : List α} {i : Nat}
    (h : i < l.length) : ∃ a, l.get? i = some a :=
  ⟨l.get ⟨i, h⟩, List.get?_eq_get h⟩

/-! ## Conflict-detector lemmas -/

lemma dbSlot_eq_foldl (fid : String) (st : List Issue × BookMap)
    (cid? : Option String) :
    dbSlot fid st cid? = (pilotOcc fid cid?).foldl dbOcc st := by
  cases cid? with
  | none => rfl
  | some c =>
    by_cases h : c.isEmpty
    · simp [dbSlot, pilotOcc, h]
    · simp only [dbSlot, pilotOcc, h, if_neg, Bool.false_eq_true, if_false,
        List.foldl_cons, List.foldl_nil]
      rfl

lemma dbAssignment_eq_foldl (st : List Issue × BookMap) (a : Assignment) :
    dbAssignment st a = (occsOf a).foldl dbOcc st := by
  unfold dbAssignment occsOf
  simp only [dbSlot_eq_foldl, List.foldl_append, List.foldl_map]
  rfl

lemma pushOccs_cons (m : BookMap) (o : Occ) (os : List Occ) :
    pushOccs m (o :: os) = pushOccs ((o.crew_id, o.flight_id) :: m) os := rfl

lemma foldl_dbOcc_eq (os : List Occ) : ∀ (iss : List Issue) (m : BookMap),
    os.foldl dbOcc (iss, m) = (iss ++ dbSpec m os, pushOccs m os) := by
  induction os with
  | nil => intro iss m; simp [dbSpec, pushOccs]
  | cons o os ih =>
    intro iss m
    rw [List.foldl_cons]
    cases h : m.lookup o.crew_id with
    | some prev =>
      have hstep : dbOcc (iss, m) o =
          (iss ++ [Issue.doubleBooking o.crew_id [prev, o.flight_id] o.severity],
           (o.crew_id, o.flight_id) :: m) := by
        simp [dbOcc, h]
      rw [hstep, ih, pushOccs_cons]
      simp [dbSpec, h]
    | none =>
      have hstep : dbOcc (iss, m) o = (iss, (o.crew_id, o.flight_id) :: m) := by
        simp [dbOcc, h]
      rw [hstep, ih, pushOccs_cons]
      simp [dbSpec, h]

lemma occList_cons (a : Assignment) (asgs : List Assignment) :
    occList (a :: asgs) = occsOf a ++ occList asgs := by
  simp [occList]

lemma pushOccs_append (m : BookMap) (os₁ os₂ : List Occ) :
    pushOccs m (os₁ ++ os₂) = pushOccs (pushOccs m os₁) os₂ := by
  simp [pushOccs, List.foldl_append]

lemma dbSpec_append (os₁ os₂ : List Occ) : ∀ m : BookMap,
    dbSpec m (os₁ ++ os₂) = dbSpec m os₁ ++ dbSpec (pushOccs m os₁) os₂ := by
  induction os₁ with
  | nil => intro m; simp [dbSpec, pushOccs]
  | cons o os ih =>
    intro m
    rw [List.cons_append]
    cases h : m.lookup o.crew_id with
    | some prev => simp [dbSpec, h, ih, pushOccs_cons]
    | none => simp [dbSpec, h, ih, pushOccs_cons]

lemma foldl_dbAssignment_eq (asgs : List Assignment) :
    ∀ (iss : List Issue) (m : BookMap),
    asgs.foldl dbAssignment (iss, m) =
      (iss ++ dbSpec m (occList asgs), pushOccs m (occList asgs)) := by
  induction asgs with
  | nil => intro iss m; simp [occList, dbSpec, pushOccs]
  | cons a asgs ih =>
    intro iss m
    rw [List.foldl_cons, dbAssignment_eq_foldl, foldl_dbOcc_eq, ih,
      occList_cons, dbSpec_append, pushOccs_append]
    simp

lemma shortage_foldl_eq (asgs : List Assignment) : ∀ iss : List Issue,
    asgs.foldl (fun iss a =>
      match shortageIssue a with
      | some i => iss ++ [i]
      | none => iss) iss = iss ++ asgs.filterMap shortageIssue := by
  induction asgs with
  | nil => intro iss; simp
  | cons a asgs ih =>
    intro iss
    rw [List.foldl_cons]
    cases h : shortageIssue a with
    | some i => simp [h, ih, List.filterMap_cons]
    | none => simp [h, ih, List.filterMap_cons]

lemma filterMap_shortage (asgs : List Assignment) :
    asgs.filterMap shortageIssue = shortageSpec asgs := by
  induction asgs with
  | nil => rfl
  | cons a asgs ih =>
    by_cases h : (!pyTruthy a.captain || !pyTruthy a.first_officer) = true
    · simp [List.filterMap_cons, shortageIssue, shortageSpec, List.filter_cons, h] at ih ⊢
      exact ih
    · simp [List.filterMap_cons, shortageIssue, shortageSpec, List.filter_cons, h] at ih ⊢
      exact ih

lemma checkScheduleIssues_eq (asgs : List Assignment) :
    checkScheduleIssues asgs = dbSpec [] (occList asgs) ++ shortageSpec asgs := by
  unfold checkScheduleIssues
  rw [foldl_dbAssignment_eq, shortage_foldl_eq, filterMap_shortage]
  simp

lemma dbSpec_all_db (os : List Occ) : ∀ (m : BookMap),
    ∀ i ∈ dbSpec m os, isDoubleBooking i = true := by
  induction os with
  | nil => intro m i hi; simp [dbSpec] at hi
  | cons o os ih =>
    intro m i hi
    cases h : m.lookup o.crew_id with
    | some prev =>
      rw [dbSpec, h] at hi
      rcases List.mem_cons.mp hi with hi | hi
      · subst hi; rfl
      · exact ih _ i hi
    | none =>
      rw [dbSpec, h] at hi
      exact ih _ i hi

lemma shortageSpec_all_short (asgs : List Assignment) :
    ∀ i ∈ shortageSpec asgs, isShortage i = true := by
  intro i hi
  unfold shortageSpec at hi
  rcases List.mem_map.mp hi with ⟨a, _, rfl⟩
  rfl

/-- C3 counterexample backdrop: the three attendant-only assignments putting
`FA001` on flights `F1`, `F2` and `F3`. -/
theorem double_booking_pairs_counterexample :
    Issue.doubleBooking "FA001" ["F2", "F3"] "MEDIUM" ∈
        checkScheduleIssues
          [soloAtt "F1" "FA001", soloAtt "F2" "FA001", soloAtt "F3" "FA001"] ∧
    Issue.doubleBooking "FA001" ["F1", "F3"] "MEDIUM" ∉
        checkScheduleIssues
          [soloAtt "F1" "FA001", soloAtt "F2" "FA001", soloAtt "F3" "FA001"] := by
  decide

/-- C3 (amended): the double-booking pass of the conflict detector maps each
crew id to the flight of its MOST RECENT sighting, so each repeat sighting
emits a `DOUBLE_BOOKING` pairing the immediately preceding sighting's flight
with the repeat flight, with severity `HIGH` at pilot slots and `MEDIUM` at
attendant slots (the severity of the repeat slot). -/
theorem double_booking_pairs_most_recent (asgs : List Assignment) :
    (checkScheduleIssues asgs).filter isDoubleBooking = dbSpec [] (occList asgs) := by
  rw [checkScheduleIssues_eq, List.filter_append,
    List.filter_eq_self.mpr (dbSpec_all_db (occList asgs) []),
    List.filter_eq_nil_iff.mpr (fun i hi => by
      have h := shortageSpec_all_short asgs i hi
      cases i with
      | doubleBooking a b c => simp [isShortage] at h
      | crewShortage a b c => simp [isDoubleBooking]),
    List.append_nil]

/-- Witness for `double_booking_pairs_most_recent` at the three-assignment
input of the counterexample. -/
theorem double_booking_pairs_most_recent_witness :
    (checkScheduleIssues
        [soloAtt "F1" "FA001", soloAtt "F2" "FA001", soloAtt "F3" "FA001"]).filter
      isDoubleBooking =
      dbSpec []
        (occList [soloAtt "F1" "FA001", soloAtt "F2" "FA001", soloAtt "F3" "FA001"]) :=
  double_booking_pairs_most_recent _

/-- C5 counterexample: with a shortage on the first assignment and a repeat
captain on the second, the issue about the later assignment (the
`DOUBLE_BOOKING` found on `F2`) is emitted before the issue about the earlier
assignment (the `CREW_SHORTAGE` of `F1`). -/
theorem issue_order_counterexample :
    checkScheduleIssues [shortageA1, repeatA2] =
      [Issue.doubleBooking "P001" ["F1", "F2"] "HIGH",
       Issue.crewShortage "F1" "first_officer" "CRITICAL"] := by
  decide

/-- C5 (amended): the detector's issue list is the double-booking pass
followed by the shortage pass; within each pass issues follow assignment
order (and slot order captain, first officer, attendants within one
assignment), but every `DOUBLE_BOOKING` precedes every `CREW_SHORTAGE`
regardless of which assignments they concern. -/
theorem issue_order_two_passes (asgs : List Assignment) :
    checkScheduleIssues asgs = dbSpec [] (occList asgs) ++ shortageSpec asgs :=
  checkScheduleIssues_eq asgs

/-- Witness for `issue_order_two_passes` at the counterexample input. -/
theorem issue_order_two_passes_witness :
    checkScheduleIssues [shortageA1, repeatA2] =
      dbSpec [] (occList [shortageA1, repeatA2]) ++
        shortageSpec [shortageA1, repeatA2] :=
  issue_order_two_passes _

/-- C6: the conflict detector emits exactly one CRITICAL `CREW_SHORTAGE` per
assignment whose captain or first officer is missing, naming the missing
role with the captain taking priority when both are absent; shortages are
values of the returned issue list (the embedded detector is a total
function, so nothing is raised). -/
theorem crew_shortage_exactly_one (asgs : List Assignment) :
    (checkScheduleIssues asgs).filter isShortage = shortageSpec asgs := by
  rw [checkScheduleIssues_eq, List.filter_append,
    List.filter_eq_self.mpr (shortageSpec_all_short asgs),
    List.filter_eq_nil_iff.mpr (fun i hi => by
      have h := dbSpec_all_db (occList asgs) [] i hi
      cases i with
      | doubleBooking a b c => simp [isShortage]
      | crewShortage a b c => simp [isDoubleBooking] at h)]
  simp

/-- Witness for `crew_shortage_exactly_one` at a two-assignment input with
one shortage. -/
theorem crew_shortage_exactly_one_witness :
    (checkScheduleIssues [shortageA1, repeatA2]).filter isShortage =
      shortageSpec [shortageA1, repeatA2] :=
  crew_shortage_exactly_one _

/-! ## Alert pipeline -/

/-- C1: at the first dequeued event of any non-empty drain, reading
`self.components['alert_system']` raises `KeyError` — the name is never
registered by `_initialize_components` — so the event is consumed but neither
forwarded nor logged, and the exception escapes the drain. -/
theorem process_alerts_raises_keyerror :
    processAlerts initializeComponents
        [{ severity := "CRITICAL", message := "engine vibration 8.2" }] ([], []) =
      Except.error "KeyError: alert_system" := rfl

/-- C4: `_initialize_components` stores `None` for the crew optimizer (the
constructor call with a config argument raises `TypeError`), hence the crew
producer tick enqueues no alert event whether or not flight data is loaded,
the single-analysis path skips the crew-optimization branch, and the crew
producer loop contributes no event over any tick schedule. -/
theorem crew_component_none_no_alerts :
    initializeComponents.lookup "crew_optimizer" = some false ∧
    (∀ fl : Bool, optimizeCrewTick initializeComponents fl = Except.ok []) ∧
    runSingleAnalysisCrewStep initializeComponents = Except.ok false ∧
    (∀ (fl : Bool) (flags : List Bool),
      (producerLoop (fun _ => optimizeCrewTick initializeComponents fl) flags 0).2 = []) := by
  refine ⟨rfl, ?_, rfl, ?_⟩
  · intro fl; cases fl <;> rfl
  · intro fl flags
    have htick : ∀ k : Nat,
        producerIteration (optimizeCrewTick initializeComponents fl) = [] := by
      intro k; cases fl <;> rfl
    have hgen : ∀ (flags : List Bool) (k : Nat),
        (producerLoop (fun _ => optimizeCrewTick initializeComponents fl) flags k).2 = [] := by
      intro flags
      induction flags with
      | nil => intro k; rfl
      | cons b rest ih =>
        intro k
        cases b with
        | false => rfl
        | true => rw [producerLoop]; rw [htick k, ih (k + 1)]; rfl
    exact hgen flags 0

/-- Witness for `crew_component_none_no_alerts` (its binders are data, not
hypotheses; instantiated at flight data loaded and a three-tick schedule). -/
theorem crew_component_none_no_alerts_witness :
    (producerLoop (fun _ => optimizeCrewTick initializeComponents true)
      [true, true, true] 0).2 = [] :=
  crew_component_none_no_alerts.2.2.2 true [true, true, true]

lemma producerLoop_iterations (eval : Nat → Except String (List Alert)) :
    ∀ (flags : List Bool) (k : Nat),
    (producerLoop eval flags k).1 = k + (flags.takeWhile (fun b => b)).length := by
  intro flags
  induction flags with
  | nil => intro k; simp [producerLoop]
  | cons b rest ih =>
    intro k
    cases b with
    | false => simp [producerLoop, List.takeWhile_cons]
    | true =>
      rw [producerLoop]
      simp [List.takeWhile_cons, ih (k + 1)]
      omega

/-- C10: the producer loop catches an exception inside one iteration and
proceeds to the next tick; the body is re-entered at every tick on which the
running flag reads true and the loop stops only at the first false read, so
under an evaluator that raises on every call the loop still executes one
iteration per true tick and enqueues no event at all.  (The iteration-count
conjunct is proved by `producerLoop_iterations` for EVERY evaluator; the
hypothesis is only needed for the zero-events conjunct.) -/
theorem producer_loop_isolated_failure (eval : Nat → Except String (List Alert))
    (flags : List Bool) (h : ∀ n, ∃ e, eval n = Except.error e) :
    (producerLoop eval flags 0).1 = (flags.takeWhile (fun b => b)).length ∧
    (producerLoop eval flags 0).2 = [] := by
  constructor
  · rw [producerLoop_iterations eval flags 0]; omega
  · have hgen : ∀ (flags : List Bool) (k : Nat), (producerLoop eval flags k).2 = [] := by
      intro flags
      induction flags with
      | nil => intro k; rfl
      | cons b rest ih =>
        intro k
        cases b with
        | false => rfl
        | true =>
          rw [producerLoop]
          obtain ⟨e, he⟩ := h k
          simp [producerIteration, he, ih (k + 1)]
    exact hgen flags 0

/-- Witness for `producer_loop_isolated_failure`: an evaluator that raises on
every call, over a schedule of two true ticks then a false read. -/
theorem producer_loop_isolated_failure_witness :
    (producerLoop (fun _ => Except.error "boom") [true, true, false] 0).1 =
      ([true, true, false].takeWhile (fun b => b)).length ∧
    (producerLoop (fun _ => Except.error "boom") [true, true, false] 0).2 = [] :=
  producer_loop_isolated_failure (fun _ => Except.error "boom") [true, true, false]
    (fun _ => ⟨"boom", rfl⟩)

/-! ## Eligible-pool lemmas -/

lemma mem_availablePilotIdxs {crew : List CrewMember} {now : Time} {i : Nat}
    (h : i ∈ availablePilotIdxs crew now) :
    ∃ c, crew.get? i = some c ∧ c.role = "pilot" ∧ c.next_available ≤ now ∧
      c.rest_hours ≤ 8 := by
  unfold availablePilotIdxs at h
  obtain ⟨_, hp⟩ := List.mem_filter.mp h
  cases hc : crew.get? i with
  | none => rw [hc] at hp; simp at hp
  | some c =>
    rw [hc] at hp
    simp only [Bool.and_eq_true, beq_iff_eq, decide_eq_true_eq] at hp
    exact ⟨c, rfl, hp.1.1, hp.1.2, hp.2⟩

lemma mem_availableAttendantIdxs {crew : List CrewMember} {now : Time} {i : Nat}
    (h : i ∈ availableAttendantIdxs crew now) :
    ∃ c, crew.get? i = some c ∧ c.role = "attendant" ∧ c.next_available ≤ now := by
  unfold availableAttendantIdxs at h
  obtain ⟨_, hp⟩ := List.mem_filter.mp h
  cases hc : crew.get? i with
  | none => rw [hc] at hp; simp at hp
  | some c =>
    rw [hc] at hp
    simp only [Bool.and_eq_true, beq_iff_eq, decide_eq_true_eq] at hp
    exact ⟨c, rfl, hp.1, hp.2⟩

lemma availablePilotIdxs_nodup (crew : List CrewMember) (now : Time) :
    (availablePilotIdxs crew now).Nodup :=
  (List.nodup_range _).filter _

lemma availableAttendantIdxs_nodup (crew : List CrewMember) (now : Time) :
    (availableAttendantIdxs crew now).Nodup :=
  (List.nodup_range _).filter _

lemma capIdx_mem {crew : List CrewMember} {now : Time} {r : Rand} {i : Nat}
    (h : capIdx crew now r = some i) :
    i ∈ (availablePilotIdxs crew now).take 5 := by
  unfold capIdx at h
  by_cases hp : (availablePilotIdxs crew now).isEmpty
  · simp [hp] at h
  · rw [if_neg hp] at h
    exact List.get?_mem h

lemma foIdx_mem {crew : List CrewMember} {now : Time} {r : Rand} {j : Nat}
    (h : foIdx crew now r = some j) :
    j ∈ (availablePilotIdxs crew now).drop 5 := by
  unfold foIdx at h
  by_cases hl : 5 < (availablePilotIdxs crew now).length
  · rw [if_pos hl] at h
    exact List.get?_mem h
  · rw [if_neg hl] at h
    exact absurd h (by simp)

lemma map_get? {α β : Type} (l : List α) (g : α → β) (i : Nat) :
    (l.map g).get? i = (l.get? i).map g := by
  simp [List.get?_eq_getElem?, List.getElem?_map]

/-- Nodup crew-id injectivity: two entries at distinct indices of a crew list
with no duplicated ids have distinct ids. -/
lemma crew_id_ne_of_ne {crew : List CrewMember} {i j : Nat} {ci cj : CrewMember}
    (hnd : (crew.map CrewMember.crew_id).Nodup)
    (hgi : crew.get? i = some ci) (hgj : crew.get? j = some cj) (hij : i ≠ j) :
    ci.crew_id ≠ cj.crew_id := by
  intro he
  apply hij
  apply @List.getElem?_inj _ _ _ (crew.map CrewMember.crew_id)
    (by rw [List.length_map]; exact get?_lt_length hgi) hnd
  rw [← List.get?_eq_getElem?, ← List.get?_eq_getElem?, map_get?, map_get?, hgi, hgj]
  simp [he]

/-- C7: the captain index is drawn from the first five entries of the
eligible pilot pool and the first-officer index from the entries after the
first five, so with a duplicate-free roster the two ids always differ; a pool
of five or fewer pilots yields no first officer. -/
theorem captain_first_officer_distinct (crew : List CrewMember) (now : Time)
    (r : Rand) (f : FlightInfo) (hnd : (crew.map CrewMember.crew_id).Nodup) :
    ((assignCrewToFlight crew now r f).2.captain.isSome →
      (assignCrewToFlight crew now r f).2.first_officer.isSome →
      (assignCrewToFlight crew now r f).2.captain ≠
        (assignCrewToFlight crew now r f).2.first_officer) ∧
    ((availablePilotIdxs crew now).length ≤ 5 →
      (assignCrewToFlight crew now r f).2.first_officer = none) := by
  have hcap : (assignCrewToFlight crew now r f).2.captain
      = (capIdx crew now r).bind (fun i => (crew.get? i).map CrewMember.crew_id) := rfl
  have hfo : (assignCrewToFlight crew now r f).2.first_officer
      = (foIdx crew now r).bind (fun i => (crew.get? i).map CrewMember.crew_id) := rfl
  constructor
  · intro hc hf heq
    rw [hcap, hfo] at heq
    cases hci : capIdx crew now r with
    | none => rw [hcap, hci] at hc; simp at hc
    | some i =>
      cases hfi : foIdx crew now r with
      | none => rw [hfo, hfi] at hf; simp at hf
      | some j =>
        rw [hci, hfi] at heq
        have hij : i ≠ j := by
          intro he
          exact List.disjoint_take_drop (availablePilotIdxs_nodup crew now)
            le_rfl (capIdx_mem hci) (he ▸ foIdx_mem hfi)
        obtain ⟨ci, hgi, _, _, _⟩ :=
          mem_availablePilotIdxs (List.mem_of_mem_take (capIdx_mem hci))
        obtain ⟨cj, hgj, _, _, _⟩ :=
          mem_availablePilotIdxs (List.mem_of_mem_drop (foIdx_mem hfi))
        have heq' : Option.map CrewMember.crew_id (crew.get? i) =
            Option.map CrewMember.crew_id (crew.get? j) := heq
        rw [hgi, hgj] at heq'
        exact crew_id_ne_of_ne hnd hgi hgj hij (by simpa using heq')
  · intro hle
    rw [hfo]
    unfold foIdx
    rw [if_neg (by omega)]
    rfl

/-- Witness for `captain_first_officer_distinct` on the initial roster at
hour 0 (captain `P001`, first officer `P006`). -/
theorem captain_first_officer_distinct_witness :
    (assignCrewToFlight (initializeCrew 0) 0 ⟨0, 0, [], 0⟩
        { flight_id := "GA1001", aircraft_id := "VT-AXB" }).2.captain ≠
    (assignCrewToFlight (initializeCrew 0) 0 ⟨0, 0, [], 0⟩
        { flight_id := "GA1001", aircraft_id := "VT-AXB" }).2.first_officer :=
  (captain_first_officer_distinct (initializeCrew 0) 0 ⟨0, 0, [], 0⟩
      { flight_id := "GA1001", aircraft_id := "VT-AXB" } (by decide)).1
    (by decide) (by decide)

/-! ## Selection-by-index lemmas (the shape of `random.sample`) -/

lemma filterMap_get?_length {α : Type} (s : List Nat) (l : List α)
    (hb : ∀ j ∈ s, j < l.length) : (s.filterMap l.get?).length = s.length := by
  induction s with
  | nil => rfl
  | cons j t ih =>
    obtain ⟨a, ha⟩ := get?_of_lt_length (hb j (List.mem_cons_self j t))
    rw [List.filterMap_cons, ha]
    simp [ih (fun x hx => hb x (List.mem_cons_of_mem _ hx))]

lemma filterMap_get?_subset {α : Type} (s : List Nat) (l : List α) :
    ∀ x ∈ s.filterMap l.get?, x ∈ l := by
  intro x hx
  obtain ⟨j, _, hj⟩ := List.mem_filterMap.mp hx
  exact List.get?_mem hj

lemma filterMap_get?_nodup {α : Type} (s : List Nat) (l : List α)
    (hs : s.Nodup) (hb : ∀ j ∈ s, j < l.length) (hl : l.Nodup) :
    (s.filterMap l.get?).Nodup := by
  induction s with
  | nil => simp
  | cons j t ih =>
    obtain ⟨a, ha⟩ := get?_of_lt_length (hb j (List.mem_cons_self j t))
    rw [List.filterMap_cons, ha]
    obtain ⟨hjt, hts⟩ := List.nodup_cons.mp hs
    refine List.nodup_cons.mpr
      ⟨?_, ih hts (fun x hx => hb x (List.mem_cons_of_mem _ hx))⟩
    intro hmem
    obtain ⟨j', hj', ha'⟩ := List.mem_filterMap.mp hmem
    have : j = j' := by
      apply @List.getElem?_inj _ _ _ l (hb j (List.mem_cons_self j t)) hl
      rw [← List.get?_eq_getElem?, ← List.get?_eq_getElem?, ha, ha']
    exact hjt (this ▸ hj')

lemma filterMap_get?_map {α β : Type} (s : List Nat) (l : List α) (g : α → β) :
    s.filterMap (fun i => (l.get? i).map g) = s.filterMap (l.map g).get? := by
  induction s with
  | nil => rfl
  | cons j t ih =>
    rw [List.filterMap_cons, List.filterMap_cons, ih, map_get?]

/-- C8: the attendant list of every produced assignment has no duplicate ids,
draws every id from the eligible attendant pool at selection time, and has
length exactly `min 4 (pool size)` (the `random.sample` contract `SampleOk`
supplies distinct in-range positions). -/
theorem attendant_selection (crew : List CrewMember) (now : Time) (r : Rand)
    (f : FlightInfo) (hnd : (crew.map CrewMember.crew_id).Nodup)
    (hs : SampleOk r.attSample (availableAttendantIdxs crew now).length) :
    (assignCrewToFlight crew now r f).2.attendants.Nodup ∧
    (∀ x ∈ (assignCrewToFlight crew now r f).2.attendants,
      x ∈ attendantPoolIds crew now) ∧
    (assignCrewToFlight crew now r f).2.attendants.length =
      min 4 (availableAttendantIdxs crew now).length := by
  obtain ⟨hnd_s, hb_s, hlen_s⟩ := hs
  have hatt : (assignCrewToFlight crew now r f).2.attendants =
      (attIdxsOf crew now r).filterMap
        (fun i => (crew.get? i).map CrewMember.crew_id) := rfl
  have h1 : ∀ i ∈ attIdxsOf crew now r, i ∈ availableAttendantIdxs crew now :=
    fun i hi => filterMap_get?_subset _ _ i hi
  have hblt : ∀ i ∈ attIdxsOf crew now r, i < crew.length := by
    intro i hi
    obtain ⟨c, hc, _, _⟩ := mem_availableAttendantIdxs (h1 i hi)
    exact get?_lt_length hc
  have hnod_idx : (attIdxsOf crew now r).Nodup :=
    filterMap_get?_nodup _ _ hnd_s hb_s (availableAttendantIdxs_nodup crew now)
  have hlen_idx : (attIdxsOf crew now r).length =
      min 4 (availableAttendantIdxs crew now).length := by
    unfold attIdxsOf
    rw [filterMap_get?_length _ _ hb_s, hlen_s]
  refine ⟨?_, ?_, ?_⟩
  · rw [hatt, filterMap_get?_map]
    exact filterMap_get?_nodup _ _ hnod_idx
      (fun j hj => by rw [List.length_map]; exact hblt j hj) hnd
  · intro x hx
    rw [hatt] at hx
    obtain ⟨i, hi, hxi⟩ := List.mem_filterMap.mp hx
    exact List.mem_filterMap.mpr ⟨i, h1 i hi, hxi⟩
  · rw [hatt, filterMap_get?_map,
      filterMap_get?_length _ _ (fun j hj => by
        rw [List.length_map]; exact hblt j hj),
      hlen_idx]

/-- Witness for `attendant_selection` on the initial roster at hour 0
with the sample positions 0–3 of the 20-attendant pool. -/
theorem attendant_selection_witness :
    (assignCrewToFlight (initializeCrew 0) 0 ⟨0, 0, [0, 1, 2, 3], 0⟩
        { flight_id := "GA1001", aircraft_id := "VT-AXB" }).2.attendants.Nodup ∧
    (∀ x ∈ (assignCrewToFlight (initializeCrew 0) 0 ⟨0, 0, [0, 1, 2, 3], 0⟩
        { flight_id := "GA1001", aircraft_id := "VT-AXB" }).2.attendants,
      x ∈ attendantPoolIds (initializeCrew 0) 0) ∧
    (assignCrewToFlight (initializeCrew 0) 0 ⟨0, 0, [0, 1, 2, 3], 0⟩
        { flight_id := "GA1001", aircraft_id := "VT-AXB" }).2.attendants.length =
      min 4 (availableAttendantIdxs (initializeCrew 0) 0).length :=
  attendant_selection (initializeCrew 0) 0 ⟨0, 0, [0, 1, 2, 3], 0⟩
    { flight_id := "GA1001", aircraft_id := "VT-AXB" } (by decide) (by decide)

/-! ## Availability monotonicity -/

lemma get?_set_self {α : Type} {l : List α} {i : Nat} {a : α} (b : α)
    (h : l.get? i = some a) : (l.set i b).get? i = some b := by
  have hl : i < l.length := get?_lt_length h
  rw [List.get?_eq_getElem?, List.getElem?_set_self]
  simp [List.getElem?_eq_getElem, hl]

lemma get?_set_ne {α : Type} {l : List α} {i j : Nat} {b : α} (h : j ≠ i) :
    (l.set i b).get? j = l.get? j := by
  rw [List.get?_eq_getElem?, List.get?_eq_getElem?,
    List.getElem?_set_ne (fun he => h he.symm)]

lemma touchedOrKept_refl (crew : List CrewMember) (now na : Time) :
    TouchedOrKept crew crew now na := by
  intro j c c' hc hc'
  rw [hc] at hc'
  exact Or.inl (Option.some.inj hc').symm

lemma touchedOrKept_touchAt {crew cs : List CrewMember} {now na : Time}
    (hB : TouchedOrKept crew cs now na) {i : Nat}
    (hi : ∀ c, crew.get? i = some c → c.next_available ≤ now) (fid : String) :
    TouchedOrKept crew (touchAt cs i fid na) now na := by
  intro j c c' hc hc'
  unfold touchAt at hc'
  cases hcs : cs.get? i with
  | none => rw [hcs] at hc'; exact hB j c c' hc hc'
  | some b =>
    rw [hcs] at hc'
    by_cases hji : j = i
    · subst hji
      rw [get?_set_self _ hcs] at hc'
      right
      refine ⟨?_, hi c hc⟩
      rw [← Option.some.inj hc']
      rfl
    · rw [get?_set_ne hji] at hc'
      exact hB j c c' hc hc'

lemma touchedOrKept_foldl {crew : List CrewMember} {now na : Time} {fid : String} :
    ∀ (idxs : List Nat) (cs : List CrewMember),
      (∀ i ∈ idxs, ∀ c, crew.get? i = some c → c.next_available ≤ now) →
      TouchedOrKept crew cs now na →
      TouchedOrKept crew (idxs.foldl (fun cs i => touchAt cs i fid na) cs) now na := by
  intro idxs
  induction idxs with
  | nil => intro cs _ h; exact h
  | cons i t ih =>
    intro cs hmem h
    rw [List.foldl_cons]
    exact ih _ (fun x hx => hmem x (List.mem_cons_of_mem _ hx))
      (touchedOrKept_touchAt h
        (fun c hc => hmem i (List.mem_cons_self i t) c hc) fid)

lemma assign_state_eq (crew : List CrewMember) (now : Time) (r : Rand)
    (f : FlightInfo) :
    (assignCrewToFlight crew now r f).1 =
      (attIdxsOf crew now r).foldl
        (fun cs i => touchAt cs i f.flight_id (restEnd now r))
        (match foIdx crew now r with
         | some i => touchAt
            (match capIdx crew now r with
             | some i0 => touchAt crew i0 f.flight_id (restEnd now r)
             | none => crew) i f.flight_id (restEnd now r)
         | none =>
            match capIdx crew now r with
            | some i0 => touchAt crew i0 f.flight_id (restEnd now r)
            | none => crew) := rfl

lemma assign_touchedOrKept (crew : List CrewMember) (now : Time) (r : Rand)
    (f : FlightInfo) :
    TouchedOrKept crew (assignCrewToFlight crew now r f).1 now (restEnd now r) := by
  have havail_p : ∀ {i : Nat}, i ∈ availablePilotIdxs crew now →
      ∀ c, crew.get? i = some c → c.next_available ≤ now := by
    intro i hi c hc
    obtain ⟨c', hc', _, hna, _⟩ := mem_availablePilotIdxs hi
    rw [hc] at hc'
    exact (Option.some.inj hc') ▸ hna
  have havail_a : ∀ {i : Nat}, i ∈ availableAttendantIdxs crew now →
      ∀ c, crew.get? i = some c → c.next_available ≤ now := by
    intro i hi c hc
    obtain ⟨c', hc', _, hna⟩ := mem_availableAttendantIdxs hi
    rw [hc] at hc'
    exact (Option.some.inj hc') ▸ hna
  rw [assign_state_eq]
  apply touchedOrKept_foldl
  · intro i hi c hc
    exact havail_a (filterMap_get?_subset _ _ i hi) c hc
  · cases hfi : foIdx crew now r with
    | none =>
      cases hci : capIdx crew now r with
      | none => exact touchedOrKept_refl _ _ _
      | some i0 =>
        exact touchedOrKept_touchAt (touchedOrKept_refl _ _ _)
          (fun c hc =>
            havail_p (List.mem_of_mem_take (capIdx_mem hci)) c hc) _
    | some i =>
      cases hci : capIdx crew now r with
      | none =>
        exact touchedOrKept_touchAt (touchedOrKept_refl _ _ _)
          (fun c hc => havail_p (List.mem_of_mem_drop (foIdx_mem hfi)) c hc) _
      | some i0 =>
        exact touchedOrKept_touchAt
          (touchedOrKept_touchAt (touchedOrKept_refl _ _ _)
            (fun c hc =>
              havail_p (List.mem_of_mem_take (capIdx_mem hci)) c hc) _)
          (fun c hc => havail_p (List.mem_of_mem_drop (foIdx_mem hfi)) c hc) _

lemma assign_next_available_mono (crew : List CrewMember) (now : Time)
    (r : Rand) (f : FlightInfo) {j : Nat} {c c' : CrewMember}
    (hc : crew.get? j = some c)
    (hc' : (assignCrewToFlight crew now r f).1.get? j = some c') :
    c.next_available ≤ c'.next_available := by
  rcases assign_touchedOrKept crew now r f j c c' hc hc' with h | ⟨hna, hle⟩
  · rw [h]
  · rw [hna]
    exact le_trans hle (Nat.le_add_right now _)

lemma touchAt_length (crew : List CrewMember) (i : Nat) (fid : String)
    (na : Time) : (touchAt crew i fid na).length = crew.length := by
  unfold touchAt
  cases crew.get? i <;> simp

lemma foldl_touchAt_length (fid : String) (na : Time) :
    ∀ (idxs : List Nat) (cs : List CrewMember),
      (idxs.foldl (fun cs i => touchAt cs i fid na) cs).length = cs.length := by
  intro idxs
  induction idxs with
  | nil => intro cs; rfl
  | cons i t ih =>
    intro cs
    rw [List.foldl_cons, ih, touchAt_length]

lemma assign_length (crew : List CrewMember) (now : Time) (r : Rand)
    (f : FlightInfo) :
    (assignCrewToFlight crew now r f).1.length = crew.length := by
  rw [assign_state_eq, foldl_touchAt_length]
  cases foIdx crew now r <;> cases capIdx crew now r <;> simp [touchAt_length]

lemma runFlights_nil (env : Nat → Time × Rand) (k : Nat)
    (crew : List CrewMember) : runFlights env k crew [] = (crew, []) := rfl

lemma runFlights_cons (env : Nat → Time × Rand) (k : Nat)
    (crew : List CrewMember) (f : FlightInfo) (fs : List FlightInfo) :
    runFlights env k crew (f :: fs) =
      ((runFlights env (k + 1) (assignCrewToFlight crew (env k).1 (env k).2 f).1 fs).1,
       (assignCrewToFlight crew (env k).1 (env k).2 f).2 ::
         (runFlights env (k + 1) (assignCrewToFlight crew (env k).1 (env k).2 f).1 fs).2) :=
  rfl

/-- C9: across one engine run (any flight batch, any clock readings, any
random draws), no crew entry's `next_available` ever decreases: the final
value at every roster position is at least the initial one.  Because the
statement holds for every starting crew state and every suffix of the batch,
it applies between any two consecutive assignments a member participates in. -/
theorem next_available_monotone (env : Nat → Time × Rand)
    (flights : List FlightInfo) :
    ∀ (k : Nat) (crew : List CrewMember) (j : Nat) (c c' : CrewMember),
      crew.get? j = some c →
      (runFlights env k crew flights).1.get? j = some c' →
      c.next_available ≤ c'.next_available := by
  induction flights with
  | nil =>
    intro k crew j c c' hc hc'
    rw [runFlights_nil] at hc'
    rw [hc] at hc'
    exact (Option.some.inj hc') ▸ le_rfl
  | cons f fs ih =>
    intro k crew j c c' hc hc'
    rw [runFlights_cons] at hc'
    have hj : j < crew.length := get?_lt_length hc
    have hmidlt : j < (assignCrewToFlight crew (env k).1 (env k).2 f).1.length := by
      rw [assign_length]; exact hj
    obtain ⟨b, hb⟩ := get?_of_lt_length hmidlt
    exact le_trans (assign_next_available_mono _ _ _ _ hc hb)
      (ih (k + 1) _ j b c' hb hc')

/-- Witness for `next_available_monotone`: a one-attendant roster through a
one-flight batch, availability moving from hour 0 to hour 11. -/
theorem next_available_monotone_witness :
    ({ crew_id := "FA001", role := "attendant", rest_hours := 0,
       next_available := 0, assigned_flights := [] } : CrewMember).next_available ≤
    ({ crew_id := "FA001", role := "attendant", rest_hours := 0,
       next_available := 11, assigned_flights := ["GA1001"] } : CrewMember).next_available :=
  next_available_monotone (fun _ => (0, ⟨0, 0, [0], 0⟩))
    [{ flight_id := "GA1001", aircraft_id := "VT-AXB" }] 0
    [{ crew_id := "FA001", role := "attendant", rest_hours := 0,
       next_available := 0, assigned_flights := [] }] 0 _ _ rfl rfl

/-! ## The frozen-clock scenario -/

lemma sample_pair {s : List Nat} (hnd : s.Nodup) (hb : ∀ j ∈ s, j < 2)
    (hl : s.length = 2) : s = [0, 1] ∨ s = [1, 0] := by
  obtain ⟨a, b, rfl⟩ := List.length_eq_two.mp hl
  have ha : a < 2 := hb a (by simp)
  have hb2 : b < 2 := hb b (by simp)
  have hab : a ≠ b := by
    rcases List.nodup_cons.mp hnd with ⟨h1, _⟩
    intro he
    exact h1 (he ▸ List.mem_singleton.mpr rfl)
  interval_cases a <;> interval_cases b <;> simp_all

lemma attendantIdxs_eq_nil {crew : List CrewMember} {now : Time}
    (h : ∀ c ∈ crew, ¬ c.next_available ≤ now) :
    availableAttendantIdxs crew now = [] := by
  unfold availableAttendantIdxs
  apply List.filter_eq_nil_iff.mpr
  intro i _
  cases hc : crew.get? i with
  | none => simp
  | some c =>
    have := h c (List.get?_mem hc)
    simp [this]

lemma pilotIdxs_eq_nil {crew : List CrewMember} {now : Time}
    (h : ∀ c ∈ crew, ¬ c.role = "pilot") :
    availablePilotIdxs crew now = [] := by
  unfold availablePilotIdxs
  apply List.filter_eq_nil_iff.mpr
  intro i _
  cases hc : crew.get? i with
  | none => simp
  | some c =>
    have := h c (List.get?_mem hc)
    simp [this]

lemma assign_empty_pools {crew : List CrewMember} {now : Time} (r : Rand)
    (f : FlightInfo)
    (hp : availablePilotIdxs crew now = [])
    (ha : availableAttendantIdxs crew now = []) :
    assignCrewToFlight crew now r f =
      (crew, emptyAsg f.flight_id f.aircraft_id) := by
  have hcap : capIdx crew now r = none := by
    unfold capIdx
    simp [hp]
  have hfo : foIdx crew now r = none := by
    unfold foIdx
    simp [hp]
  have hatt : attIdxsOf crew now r = [] := by
    unfold attIdxsOf
    rw [ha]
    apply List.filterMap_eq_nil_iff.mpr
    intro j _
    simp
  unfold assignCrewToFlight
  simp only [hcap, hfo, hatt]
  rfl

lemma frozen_step1 (cc fc dc : Nat) (s : List Nat) (hs : s = [0, 1] ∨ s = [1, 0]) :
    assignCrewToFlight frozenRoster 0 ⟨cc, fc, s, dc⟩
        { flight_id := "GA1001", aircraft_id := "VT-AXB" } =
      (frozenAfter dc,
       { flight_id := "GA1001", aircraft_id := "VT-AXB", captain := none,
         first_officer := none,
         attendants := if s = [0, 1] then ["FA001", "FA002"] else ["FA002", "FA001"],
         crew_count := 2 }) := by
  have hpil : availablePilotIdxs frozenRoster 0 = [] := by decide
  have hatts : availableAttendantIdxs frozenRoster 0 = [0, 1] := by decide
  have hcap : ∀ r : Rand, capIdx frozenRoster 0 r = none := by
    intro r
    unfold capIdx
    simp [hpil]
  have hfo : ∀ r : Rand, foIdx frozenRoster 0 r = none := by
    intro r
    unfold foIdx
    simp [hpil]
  rcases hs with rfl | rfl
  · have hattIdx : attIdxsOf frozenRoster 0 ⟨cc, fc, [0, 1], dc⟩ = [0, 1] := by
      unfold attIdxsOf
      rw [hatts]
      rfl
    rw [if_pos rfl]
    unfold assignCrewToFlight
    simp only [hcap, hfo, hattIdx]
    rfl
  · have hattIdx : attIdxsOf frozenRoster 0 ⟨cc, fc, [1, 0], dc⟩ = [1, 0] := by
      unfold attIdxsOf
      rw [hatts]
      rfl
    rw [if_neg (by decide)]
    unfold assignCrewToFlight
    simp only [hcap, hfo, hattIdx]
    rfl

lemma frozenAfter_pilot_nil (dc : Nat) :
    availablePilotIdxs (frozenAfter dc) 0 = [] := by
  apply pilotIdxs_eq_nil
  intro c hc
  simp only [frozenAfter, List.mem_cons, List.mem_singleton] at hc
  rcases hc with rfl | hc
  · simp
  · rcases hc with rfl | hc
    · simp
    · simp at hc

lemma frozenAfter_att_nil (dc : Nat) :
    availableAttendantIdxs (frozenAfter dc) 0 = [] := by
  apply attendantIdxs_eq_nil
  intro c hc
  simp only [frozenAfter, List.mem_cons, List.mem_singleton] at hc
  rcases hc with rfl | hc
  · simp
  · rcases hc with rfl | hc
    · simp
    · simp at hc

/-- C2 counterexample: with exactly 2 attendants and a frozen clock, both
attendants appear only in the FIRST flight's pool and assignment; the pool
for the second flight is empty, the later assignments carry no attendants,
and the detector emits no `DOUBLE_BOOKING` at all (the run's issues are the
three captain shortages). -/
theorem frozen_clock_scenario_counterexample :
    availableAttendantIdxs
      ((runFlights (frozenEnv [⟨0, 0, [0, 1], 0⟩, ⟨0, 0, [], 0⟩, ⟨0, 0, [], 0⟩])
          0 frozenRoster (frozenFlights.take 1)).1) 0 = [] ∧
    (optimizeSchedule frozenRoster frozenFlights
        (frozenEnv [⟨0, 0, [0, 1], 0⟩, ⟨0, 0, [], 0⟩, ⟨0, 0, [], 0⟩])).2.1.map
      Assignment.attendants = [["FA001", "FA002"], [], []] ∧
    (optimizeSchedule frozenRoster frozenFlights
        (frozenEnv [⟨0, 0, [0, 1], 0⟩, ⟨0, 0, [], 0⟩, ⟨0, 0, [], 0⟩])).2.2.filter
      isDoubleBooking = [] := by
  refine ⟨?_, ?_, ?_⟩ <;> decide

/-- C2 (amended): in the frozen-clock scenario (roster of exactly 2
attendants, 3 flights, no time advance) the two attendant ids are both
assigned to the first flight; from the second flight on the eligible
attendant pool is empty — `next_available` was set ahead of the frozen `now`,
which EXCLUDES the attendants from the `next_available <= now` filter — the
remaining assignments carry no attendants, and no `DOUBLE_BOOKING` issue is
emitted.  Universal over the random draws (the first flight's sample obeying
the `random.sample` contract). -/
theorem frozen_clock_scenario_amended (r1 r2 r3 : Rand)
    (h : SampleOk r1.attSample 2) :
    ((optimizeSchedule frozenRoster frozenFlights (frozenEnv [r1, r2, r3])).2.1.map
        Assignment.attendants = [["FA001", "FA002"], [], []] ∨
     (optimizeSchedule frozenRoster frozenFlights (frozenEnv [r1, r2, r3])).2.1.map
        Assignment.attendants = [["FA002", "FA001"], [], []]) ∧
    availableAttendantIdxs
      ((runFlights (frozenEnv [r1, r2, r3]) 0 frozenRoster
          (frozenFlights.take 1)).1) 0 = [] ∧
    (optimizeSchedule frozenRoster frozenFlights (frozenEnv [r1, r2, r3])).2.2.filter
      isDoubleBooking = [] := by
  obtain ⟨cc, fc, s, dc⟩ := r1
  obtain ⟨hnd, hb, hlen⟩ := h
  have hs : s = [0, 1] ∨ s = [1, 0] := sample_pair hnd hb (hlen.trans rfl)
  have e0 : frozenEnv [⟨cc, fc, s, dc⟩, r2, r3] 0 = (0, ⟨cc, fc, s, dc⟩) := rfl
  have e1 : frozenEnv [⟨cc, fc, s, dc⟩, r2, r3] 1 = (0, r2) := rfl
  have e2 : frozenEnv [⟨cc, fc, s, dc⟩, r2, r3] 2 = (0, r3) := rfl
  have hf : frozenFlights =
      ({ flight_id := "GA1001", aircraft_id := "VT-AXB" } : FlightInfo) ::
      ({ flight_id := "GA1002", aircraft_id := "VT-BXC" } : FlightInfo) ::
      [({ flight_id := "GA1003", aircraft_id := "VT-CXD" } : FlightInfo)] := rfl
  have hrun : runFlights (frozenEnv [⟨cc, fc, s, dc⟩, r2, r3]) 0
      frozenRoster frozenFlights =
      (frozenAfter dc,
       [{ flight_id := "GA1001", aircraft_id := "VT-AXB", captain := none,
          first_officer := none,
          attendants := if s = [0, 1] then ["FA001", "FA002"] else ["FA002", "FA001"],
          crew_count := 2 },
        emptyAsg "GA1002" "VT-BXC", emptyAsg "GA1003" "VT-CXD"]) := by
    simp only [hf, runFlights_cons, runFlights_nil, e0, e1, e2,
      frozen_step1 cc fc dc s hs,
      assign_empty_pools r2 { flight_id := "GA1002", aircraft_id := "VT-BXC" }
        (frozenAfter_pilot_nil dc) (frozenAfter_att_nil dc),
      assign_empty_pools r3 { flight_id := "GA1003", aircraft_id := "VT-CXD" }
        (frozenAfter_pilot_nil dc) (frozenAfter_att_nil dc)]
  have hpool1 : availableAttendantIdxs
      ((runFlights (frozenEnv [⟨cc, fc, s, dc⟩, r2, r3]) 0 frozenRoster
          (frozenFlights.take 1)).1) 0 = [] := by
    rw [show frozenFlights.take 1 =
        [({ flight_id := "GA1001", aircraft_id := "VT-AXB" } : FlightInfo)] from rfl,
      runFlights_cons, e0, frozen_step1 cc fc dc s hs]
    exact frozenAfter_att_nil dc
  refine ⟨?_, hpool1, ?_⟩
  · rcases hs with rfl | rfl
    · left
      simp only [optimizeSchedule, hrun]
      decide
    · right
      simp only [optimizeSchedule, hrun]
      decide
  · rcases hs with rfl | rfl
    · simp only [optimizeSchedule, hrun]
      decide
    · simp only [optimizeSchedule, hrun]
      decide

/-- Witness for `frozen_clock_scenario_amended` at the deterministic draws of
the counterexample run. -/
theorem frozen_clock_scenario_amended_witness :
    ((optimizeSchedule frozenRoster frozenFlights
        (frozenEnv [⟨0, 0, [0, 1], 0⟩, ⟨0, 0, [], 0⟩, ⟨0, 0, [], 0⟩])).2.1.map
        Assignment.attendants = [["FA001", "FA002"], [], []] ∨
     (optimizeSchedule frozenRoster frozenFlights
        (frozenEnv [⟨0, 0, [0, 1], 0⟩, ⟨0, 0, [], 0⟩, ⟨0, 0, [], 0⟩])).2.1.map
        Assignment.attendants = [["FA002", "FA001"], [], []]) ∧
    availableAttendantIdxs
      ((runFlights (frozenEnv [⟨0, 0, [0, 1], 0⟩, ⟨0, 0, [], 0⟩, ⟨0, 0, [], 0⟩])
          0 frozenRoster (frozenFlights.take 1)).1) 0 = [] ∧
    (optimizeSchedule frozenRoster frozenFlights
        (frozenEnv [⟨0, 0, [0, 1], 0⟩, ⟨0, 0, [], 0⟩, ⟨0, 0, [], 0⟩])).2.2.filter
      isDoubleBooking = [] :=
  frozen_clock_scenario_amended ⟨0, 0, [0, 1], 0⟩ ⟨0, 0, [], 0⟩ ⟨0, 0, [], 0⟩
    (by decide)

end AirlinePredict
